import Mathlib

/-!
# Verification of the CModel multi-stage model-fitting pipeline (lsst/meas_modelfit)

This file gives a shallow embedding of the CModel algorithm declared in
`CModelFit.h`: the control (configuration) structs, the per-stage and aggregate
result structs with their flag sets, the fit-region selection routines
(`determineInitialFitRegion` / `determineFinalFitRegion`), the orchestration
(`apply` / `applyForced`), the final constrained linear combination, and the
`PointSourceMorphology` component.

The repository slice contains the header `CModelFit.h` (control/result structs
with inline constructors, flag enumerations, and documented method contracts)
but not `CModel.cc`.  Where the deciding code is absent, definitions are
modelled from the specification and are marked `Modelled from the spec:` in
their doc comments.  Numeric black boxes that the specification itself treats
as external collaborators (the trust-region optimizer, the analytic linear
amplitude solves) are modelled as explicit oracle inputs, so the pipeline is a
pure function of its inputs and oracles.  Machine floating point is modelled
by the rationals.
-/

namespace Multifit

/-- A pixel coordinate (`afw` images are indexed by integer x/y). -/
abbrev Pixel := Int × Int

/-- An inclusive integer bounding box (model of `afw::geom::Box2I`). -/
structure Box2I where
  x0 : Int
  y0 : Int
  x1 : Int
  y1 : Int
deriving DecidableEq

/-- The pixels contained in an inclusive integer box. -/
def Box2I.pixels (b : Box2I) : Finset Pixel :=
  Finset.Icc b.x0 b.x1 ×ˢ Finset.Icc b.y0 b.y1

/-- Whether a pixel lies inside an inclusive integer box. -/
def Box2I.contains (b : Box2I) (p : Pixel) : Prop :=
  b.x0 ≤ p.1 ∧ p.1 ≤ b.x1 ∧ b.y0 ≤ p.2 ∧ p.2 ≤ b.y1

instance (b : Box2I) (p : Pixel) : Decidable (b.contains p) :=
  inferInstanceAs (Decidable (_ ∧ _ ∧ _ ∧ _))

/--
A mask plane image (model of `afw::image::Mask`): a valid bounding box plus,
for each named mask plane, the set of pixels flagged in that plane.
-/
structure MaskModel where
  bbox : Box2I
  planes : List (String × Finset Pixel)

/--
An exposure as the fit consumes it: the mask and the pixel values
(model of `afw::image::Exposure<Pixel>`; Wcs/Calib are absorbed into the
local unit system, see the `scale` arguments below).
-/
structure ImageData where
  mask : MaskModel
  pixels : Pixel → ℚ

/-- Sum of the image flux over a footprint (used when `approxFlux <= 0`). -/
def footprintFluxSum (img : ImageData) (fp : Finset Pixel) : ℚ :=
  fp.sum (fun p => img.pixels p)

/--
A best-fit ellipse in pixel coordinates (model of
`afw::geom::ellipses::Quadrupole`), given by a rational center and two
positive semi-axis radii; the model keeps the axes pixel-aligned.
-/
structure Ellipse where
  cx : ℚ
  cy : ℚ
  rx : ℚ
  ry : ℚ
deriving DecidableEq

/--
The multi-shapelet PSF approximation as the region logic consumes it: only
its model-image bounding box is relevant to the claims
(model of `shapelet::MultiShapeletFunction`).
-/
structure PsfApprox where
  bbox : Box2I

/-!
## Control structs (embedded from the inline constructors in `CModelFit.h`)
-/

/--
Modelled from the spec: `OptimizerControl` is declared in `optimizer.h`,
which is not part of this repository slice.  Only the two tolerances that
`CModelControl`'s constructor overrides are modelled; their upstream default
values are not visible here and are taken as 0 (no claim depends on them).
-/
structure OptimizerControl where
  gradientThreshold : ℚ
  minTrustRadiusThreshold : ℚ
deriving DecidableEq

/-- Upstream defaults of `OptimizerControl`, opaque to this slice. -/
def OptimizerControl.default : OptimizerControl :=
  { gradientThreshold := 0, minTrustRadiusThreshold := 0 }

/--
`CModelStageControl`: configuration of one nonlinear fitting stage, with the
default field values of its inline constructor
(`profileName="lux"`, `priorSource="CONFIG"`, `nComponents=8`, `maxRadius=0`,
`doRecordHistory=true`, `doRecordTime=true`).
-/
structure CModelStageControl where
  profileName : String
  priorSource : String
  priorName : String
  nComponents : Int
  maxRadius : Int
  optimizer : OptimizerControl
  doRecordHistory : Bool
  doRecordTime : Bool
deriving DecidableEq

/-- The default constructor `CModelStageControl()`. -/
def CModelStageControl.default : CModelStageControl :=
  { profileName := "lux"
    priorSource := "CONFIG"
    priorName := ""
    nComponents := 8
    maxRadius := 0
    optimizer := OptimizerControl.default
    doRecordHistory := true
    doRecordTime := true }

/--
`CModelRegionControl`: configuration of the fit-region determination, with the
default field values of its inline constructor (`includePsfBBox=false`,
`nGrowFootprint=5`, `nInitialRadii=3`, `maxArea=10000`,
`maxBadPixelFraction=0.1`, `badMaskPlanes={"EDGE","SAT"}`).
-/
structure CModelRegionControl where
  includePsfBBox : Bool
  nGrowFootprint : Int
  nInitialRadii : ℚ
  maxArea : Int
  badMaskPlanes : List String
  maxBadPixelFraction : ℚ
deriving DecidableEq

/-- The default constructor `CModelRegionControl()`. -/
def CModelRegionControl.default : CModelRegionControl :=
  { includePsfBBox := false
    nGrowFootprint := 5
    nInitialRadii := 3
    maxArea := 10000
    badMaskPlanes := ["EDGE", "SAT"]
    maxBadPixelFraction := 1/10 }

/-- `CModelDiagnosticsControl`: debug-output configuration. -/
structure CModelDiagnosticsControl where
  enabled : Bool
  root : String
  ids : List Int
deriving DecidableEq

/-- The default constructor `CModelDiagnosticsControl()`. -/
def CModelDiagnosticsControl.default : CModelDiagnosticsControl :=
  { enabled := false, root := "", ids := [] }

/--
`CModelControl`: the master configuration, aggregating the region and
diagnostics controls and the three stage controls.
-/
structure CModelControl where
  psfName : String
  region : CModelRegionControl
  diagnostics : CModelDiagnosticsControl
  initial : CModelStageControl
  exp : CModelStageControl
  dev : CModelStageControl
  minInitialRadius : ℚ
deriving DecidableEq

/--
The default constructor `CModelControl()`: starts from the stage defaults,
then sets `initial.nComponents = 3`, the two coarse convergence tolerances of
the initial stage to `1E-2`, and `dev.profileName = "luv"`.
-/
def CModelControl.default : CModelControl :=
  { psfName := "DoubleGaussian"
    region := CModelRegionControl.default
    diagnostics := CModelDiagnosticsControl.default
    initial :=
      { CModelStageControl.default with
        nComponents := 3
        optimizer := { gradientThreshold := 1/100, minTrustRadiusThreshold := 1/100 } }
    exp := CModelStageControl.default
    dev := { CModelStageControl.default with profileName := "luv" }
    minInitialRadius := 1/10 }

/-!
## Fit-region determination

Modelled from the spec: `determineInitialFitRegion` / `determineFinalFitRegion`
are implemented in `CModel.cc`, absent from this slice; the model follows the
contracts in `CModelFit.h` and spec §4.1: grow the footprint by
`nGrowFootprint`, union with the PSF bounding box when `includePsfBBox` is
set, (for the final region) extend by every pixel within `nInitialRadii`
ellipse radii, clip on the mask's bounding box, and remove pixels flagged in
the configured bad mask planes; fail when the area exceeds `maxArea` or the
excluded fraction exceeds `maxBadPixelFraction`.
-/

/-- Grow a footprint by `n` pixels (Chebyshev dilation). -/
def growFootprint (n : Int) (fp : Finset Pixel) : Finset Pixel :=
  fp.biUnion (fun p => Finset.Icc (p.1 - n) (p.1 + n) ×ˢ Finset.Icc (p.2 - n) (p.2 + n))

/-- Union of the configured bad mask planes of a mask. -/
def badPixels (rc : CModelRegionControl) (mask : MaskModel) : Finset Pixel :=
  (mask.planes.filter (fun pl => pl.1 ∈ rc.badMaskPlanes)).foldr (fun pl acc => pl.2 ∪ acc) ∅

/--
Whether a pixel lies within `k` times the radii of an ellipse:
`((x-cx)/(k rx))^2 + ((y-cy)/(k ry))^2 ≤ 1`, cleared of denominators.
-/
def withinRadii (k : ℚ) (e : Ellipse) (p : Pixel) : Prop :=
  ((p.1 : ℚ) - e.cx) ^ 2 * (k * e.ry) ^ 2 + ((p.2 : ℚ) - e.cy) ^ 2 * (k * e.rx) ^ 2 ≤
    (k * e.rx) ^ 2 * (k * e.ry) ^ 2

instance (k : ℚ) (e : Ellipse) (p : Pixel) : Decidable (withinRadii k e p) :=
  inferInstanceAs (Decidable (_ ≤ _))

/-- The set of pixels within `k` times the radii of an ellipse. -/
def ellipsePixels (k : ℚ) (e : Ellipse) : Finset Pixel :=
  (Finset.Icc ⌈e.cx - k * e.rx⌉ ⌊e.cx + k * e.rx⌋ ×ˢ
      Finset.Icc ⌈e.cy - k * e.ry⌉ ⌊e.cy + k * e.ry⌋).filter (withinRadii k e)

/-- The candidate region before bad-pixel removal: grown footprint, unioned
with the PSF bounding box when configured, unioned with `extra`, clipped on
the mask's bounding box. -/
def regionCandidate (rc : CModelRegionControl) (mask : MaskModel) (fp : Finset Pixel)
    (psfBBox : Box2I) (extra : Finset Pixel) : Finset Pixel :=
  (((if rc.includePsfBBox then growFootprint rc.nGrowFootprint fp ∪ psfBBox.pixels
      else growFootprint rc.nGrowFootprint fp) ∪ extra)).filter (fun p => mask.bbox.contains p)

/-- The retained region: the candidate minus the configured bad pixels. -/
def regionGood (rc : CModelRegionControl) (mask : MaskModel) (fp : Finset Pixel)
    (psfBBox : Box2I) (extra : Finset Pixel) : Finset Pixel :=
  regionCandidate rc mask fp psfBBox extra \ badPixels rc mask

/-- The two ways region determination can fail (model of the two
`MeasurementError` conditions documented for the region methods). -/
inductive RegionFailure where
  | maxArea
  | maxBadPixelFraction
deriving DecidableEq

/-- Area-ceiling failure condition: the retained region has more than
`maxArea` pixels. -/
def areaExceeded (rc : CModelRegionControl) (mask : MaskModel) (fp : Finset Pixel)
    (psfBBox : Box2I) (extra : Finset Pixel) : Prop :=
  rc.maxArea < ((regionGood rc mask fp psfBBox extra).card : Int)

instance (rc : CModelRegionControl) (mask : MaskModel) (fp : Finset Pixel)
    (psfBBox : Box2I) (extra : Finset Pixel) :
    Decidable (areaExceeded rc mask fp psfBBox extra) :=
  inferInstanceAs (Decidable (_ < _))

/-- Bad-fraction failure condition: the pixels excluded by bad mask planes are
more than `maxBadPixelFraction` of the candidate region. -/
def badFractionExceeded (rc : CModelRegionControl) (mask : MaskModel) (fp : Finset Pixel)
    (psfBBox : Box2I) (extra : Finset Pixel) : Prop :=
  rc.maxBadPixelFraction * ((regionCandidate rc mask fp psfBBox extra).card : ℚ) <
    (((regionCandidate rc mask fp psfBBox extra) ∩ badPixels rc mask).card : ℚ)

instance (rc : CModelRegionControl) (mask : MaskModel) (fp : Finset Pixel)
    (psfBBox : Box2I) (extra : Finset Pixel) :
    Decidable (badFractionExceeded rc mask fp psfBBox extra) :=
  inferInstanceAs (Decidable (_ < _))

/-- Shared core of the two region-determination routines, with `extra` the
additional pixel set unioned in (empty for the initial region, the scaled
initial-fit ellipse for the final region). -/
def determineFitRegion (rc : CModelRegionControl) (mask : MaskModel) (fp : Finset Pixel)
    (psfBBox : Box2I) (extra : Finset Pixel) : Except RegionFailure (Finset Pixel) :=
  if areaExceeded rc mask fp psfBBox extra then .error .maxArea
  else if badFractionExceeded rc mask fp psfBBox extra then .error .maxBadPixelFraction
  else .ok (regionGood rc mask fp psfBBox extra)

/-- `CModelAlgorithm::determineInitialFitRegion`. -/
def determineInitialFitRegion (rc : CModelRegionControl) (mask : MaskModel)
    (fp : Finset Pixel) (psfBBox : Box2I) : Except RegionFailure (Finset Pixel) :=
  determineFitRegion rc mask fp psfBBox ∅

/-- `CModelAlgorithm::determineFinalFitRegion`. -/
def determineFinalFitRegion (rc : CModelRegionControl) (mask : MaskModel)
    (fp : Finset Pixel) (psfBBox : Box2I) (e : Ellipse) : Except RegionFailure (Finset Pixel) :=
  determineFitRegion rc mask fp psfBBox (ellipsePixels rc.nInitialRadii e)

/-!
## Stage results and the external numeric oracles
-/

/-- The flag set of `CModelStageResult::FlagBit`
(`FAILED`, `TR_SMALL`, `MAX_ITERATIONS`, `NUMERIC_ERROR`). -/
structure CModelStageFlags where
  failed : Bool
  trSmall : Bool
  maxIterationsReached : Bool
  numericError : Bool
deriving DecidableEq

/-- The all-clear flag state (the `CModelStageResult()` constructor clears
the bitset). -/
def CModelStageFlags.clear : CModelStageFlags :=
  { failed := false, trSmall := false, maxIterationsReached := false, numericError := false }

/-- Termination codes returned by the external trust-region optimizer
(spec §4.2 step 4): converged, trust region collapsed, iteration cap
reached, or numeric failure. -/
inductive OptimizerStatus where
  | converged
  | trustRegionSmall
  | iterationCapReached
  | numericFailure
deriving DecidableEq

/--
Modelled from the spec: the termination-code-to-flags mapping of the stage
runner in `CModel.cc` (absent from this slice), following spec §4.2 step 5
and the flag documentation in `CModelFit.h`: a collapsed trust region sets
only the informational `TR_SMALL` flag; the iteration cap and numeric
failure set their own flag and the per-stage `FAILED` flag.
-/
def flagsOfStatus : OptimizerStatus → CModelStageFlags
  | .converged => CModelStageFlags.clear
  | .trustRegionSmall => { CModelStageFlags.clear with trSmall := true }
  | .iterationCapReached =>
      { CModelStageFlags.clear with failed := true, maxIterationsReached := true }
  | .numericFailure =>
      { CModelStageFlags.clear with failed := true, numericError := true }

/-- Outcome of one call to the external optimizer: best-fit nonlinear
parameters, the best-fit ellipse they encode, the objective value at the
optimum, and the termination code. -/
structure OptOutcome where
  nonlinear : List ℚ
  ellipse : Ellipse
  objective : ℚ
  status : OptimizerStatus
deriving DecidableEq

/-- Solution of the final constrained (non-negative) linear least-squares
problem for the two profile amplitudes (spec §4.3: a *constrained* linear
solve, so both amplitudes are non-negative by construction). -/
structure ConstrainedSolution where
  ampExp : ℚ
  ampDev : ℚ
  fluxSigma : ℚ
  objective : ℚ
  ampExpNonneg : 0 ≤ ampExp
  ampDevNonneg : 0 ≤ ampDev

/--
The external numeric collaborators, passed in as oracles (spec §1/§2 treats
the optimizer step mathematics and the analytic linear solves as external):
`opt` is the trust-region optimizer (stage index, warm-start parameters,
fit region); `ampSolve` is the analytic amplitude/uncertainty solve at a
fixed ellipse (stage index, ellipse, region, flux scale); `combineSolve`
is the final constrained linear least-squares solve over both profiles.
-/
structure NumericOracles where
  opt : ℕ → List ℚ → Finset Pixel → OptOutcome
  ampSolve : ℕ → Ellipse → Finset Pixel → ℚ → ℚ × ℚ
  combineSolve : Ellipse → Ellipse → Finset Pixel → ℚ → ConstrainedSolution

/-- `CModelStageResult`: outcome of one nonlinear fitting stage.  The ellipse
is `none` until the stage actually runs (the C++ constructor fills the
numeric fields with NaN; the model uses 0 sentinels and an explicit
`Option` for the ellipse). -/
structure CModelStageResult where
  flux : ℚ
  fluxSigma : ℚ
  objective : ℚ
  time : ℚ
  ellipse : Option Ellipse
  nonlinear : List ℚ
  flags : CModelStageFlags
deriving DecidableEq

/-- The freshly-constructed (not yet run) stage result. -/
def CModelStageResult.blank : CModelStageResult :=
  { flux := 0, fluxSigma := 0, objective := 0, time := 0, ellipse := none,
    nonlinear := [], flags := CModelStageFlags.clear }

/--
Modelled from the spec: one nonlinear fitting stage of `CModel.cc` (absent
from this slice), following spec §4.2: invoke the external optimizer with the
warm-start parameters, map its termination code to the stage flags, and solve
the linear amplitude subproblem at the best-fit ellipse for flux and
uncertainty.  Elapsed wall time is attached afterwards (see `insertTimes`).
-/
def runStage (oracles : NumericOracles) (idx : ℕ) (warm : List ℚ)
    (region : Finset Pixel) (scale : ℚ) : CModelStageResult :=
  let o := oracles.opt idx warm region
  { flux := (oracles.ampSolve idx o.ellipse region scale).1
    fluxSigma := (oracles.ampSolve idx o.ellipse region scale).2
    objective := o.objective
    time := 0
    ellipse := some o.ellipse
    nonlinear := o.nonlinear
    flags := flagsOfStatus o.status }

/--
Modelled from the spec: a forced-mode stage (spec §4.4: "the three nonlinear
stages degenerate to amplitude-only fits at those fixed ellipses"): the
reference ellipse is recorded verbatim and only the linear amplitude solve
is performed.
-/
def runForcedStage (oracles : NumericOracles) (idx : ℕ) (refEllipse : Ellipse)
    (region : Finset Pixel) (scale : ℚ) : CModelStageResult :=
  { flux := (oracles.ampSolve idx refEllipse region scale).1
    fluxSigma := (oracles.ampSolve idx refEllipse region scale).2
    objective := 0
    time := 0
    ellipse := some refEllipse
    nonlinear := []
    flags := CModelStageFlags.clear }

/-!
## The final linear combination and the aggregate result
-/

/-- Output of the final linear combination (spec §4.3): total flux, its
uncertainty, the de Vaucouleur blend fraction, and the objective value. -/
structure CombineOutput where
  flux : ℚ
  fluxSigma : ℚ
  fracDev : ℚ
  objective : ℚ
deriving DecidableEq

/--
Modelled from the spec: the final linear combination of `CModel.cc` (absent
from this slice), following spec §4.3: with both ellipses held fixed, the
constrained linear least-squares solve yields the two non-negative
amplitudes; `fracDev` is the de Vaucouleur amplitude divided by the sum of
both amplitudes.
-/
def combine (oracles : NumericOracles) (expEllipse devEllipse : Ellipse)
    (region : Finset Pixel) (scale : ℚ) : CombineOutput :=
  let s := oracles.combineSolve expEllipse devEllipse region scale
  { flux := s.ampExp + s.ampDev
    fluxSigma := s.fluxSigma
    fracDev := s.ampDev / (s.ampExp + s.ampDev)
    objective := s.objective }

/-- `CModelResult`: the aggregate result, with the flag set of
`CModelResult::FlagBit` (`FAILED`, `MAX_AREA`, `MAX_BAD_PIXEL_FRACTION`,
`NO_SHAPE`, `NO_SHAPELET_PSF`) unfolded into named booleans.  The final
linear-fit fields are `some` exactly when the linear combination ran. -/
structure CModelResult where
  flux : Option ℚ
  fluxSigma : Option ℚ
  fracDev : Option ℚ
  objective : Option ℚ
  initial : CModelStageResult
  exp : CModelStageResult
  dev : CModelStageResult
  initialFitRegion : Option (Finset Pixel)
  finalFitRegion : Option (Finset Pixel)
  maxArea : Bool
  maxBadPixelFraction : Bool
  noShape : Bool
  noShapeletPsf : Bool
  failed : Bool
deriving DecidableEq

/--
Modelled from the spec: assembly of the aggregate result (spec §4.4 step 8):
the aggregate `FAILED` flag is the logical OR of the three per-stage `FAILED`
flags and the four aggregate-specific flags.
-/
def mkResult (initS expS devS : CModelStageResult)
    (region0 regionF : Option (Finset Pixel)) (comb : Option CombineOutput)
    (ma mbpf ns nsp : Bool) : CModelResult :=
  { flux := comb.map (fun c => c.flux)
    fluxSigma := comb.map (fun c => c.fluxSigma)
    fracDev := comb.map (fun c => c.fracDev)
    objective := comb.map (fun c => c.objective)
    initial := initS
    exp := expS
    dev := devS
    initialFitRegion := region0
    finalFitRegion := regionF
    maxArea := ma
    maxBadPixelFraction := mbpf
    noShape := ns
    noShapeletPsf := nsp
    failed := initS.flags.failed || expS.flags.failed || devS.flags.failed ||
      ma || mbpf || ns || nsp }

/-!
## The orchestrator: `apply` and `applyForced`
-/

/-- The flux actually used to fix the local unit system: the `approxFlux`
argument when positive, otherwise the sum of the flux within the footprint
(documented for both `apply` and `applyForced` in `CModelFit.h`). -/
def effectiveApproxFlux (approxFlux fpSum : ℚ) : ℚ :=
  if approxFlux ≤ 0 then fpSum else approxFlux

/-- Encode a seed ellipse as the warm-start nonlinear parameter vector. -/
def nonlinearOfEllipse (e : Ellipse) : List ℚ :=
  [e.cx, e.cy, e.rx, e.ry]

/--
Modelled from the spec: `CModelAlgorithm::_applyImpl` in `CModel.cc` (absent
from this slice), following the state machine of spec §4.4, with the local
unit system already fixed by `scale`:
1. abort with `NO_SHAPE` if no seed moments are available;
2. abort with `NO_SHAPELET_PSF` if no PSF approximation is available;
3. determine the initial region, aborting with the corresponding flag on
   failure (no stage is attempted);
4. run the initial stage, warm-started from the moments;
5. determine the final region from the initial stage's ellipse, aborting with
   the corresponding flag on failure;
6. run the exp and dev stages independently, each warm-started from the
   initial stage;
7. run the linear combination only when both stages produced usable
   (non-failed) results;
8. aggregate flags by `mkResult`.
-/
def applyScaled (ctrl : CModelControl) (oracles : NumericOracles) (img : ImageData)
    (fp : Finset Pixel) (psf : Option PsfApprox) (moments : Option Ellipse)
    (scale : ℚ) : CModelResult :=
  match moments with
  | none =>
      mkResult CModelStageResult.blank CModelStageResult.blank CModelStageResult.blank
        none none none false false true false
  | some mom =>
    match psf with
    | none =>
        mkResult CModelStageResult.blank CModelStageResult.blank CModelStageResult.blank
          none none none false false false true
    | some psfA =>
      match determineInitialFitRegion ctrl.region img.mask fp psfA.bbox with
      | .error .maxArea =>
          mkResult CModelStageResult.blank CModelStageResult.blank CModelStageResult.blank
            none none none true false false false
      | .error .maxBadPixelFraction =>
          mkResult CModelStageResult.blank CModelStageResult.blank CModelStageResult.blank
            none none none false true false false
      | .ok region0 =>
        let initS := runStage oracles 0 (nonlinearOfEllipse mom) region0 scale
        let initEllipse := initS.ellipse.getD mom
        match determineFinalFitRegion ctrl.region img.mask fp psfA.bbox initEllipse with
        | .error .maxArea =>
            mkResult initS CModelStageResult.blank CModelStageResult.blank
              (some region0) none none true false false false
        | .error .maxBadPixelFraction =>
            mkResult initS CModelStageResult.blank CModelStageResult.blank
              (some region0) none none false true false false
        | .ok regionF =>
          let expS := runStage oracles 1 initS.nonlinear regionF scale
          let devS := runStage oracles 2 initS.nonlinear regionF scale
          if expS.flags.failed || devS.flags.failed then
            mkResult initS expS devS (some region0) (some regionF) none
              false false false false
          else
            mkResult initS expS devS (some region0) (some regionF)
              (some (combine oracles (expS.ellipse.getD initEllipse)
                (devS.ellipse.getD initEllipse) regionF scale))
              false false false false

/--
Modelled from the spec: `CModelAlgorithm::_applyForcedImpl` in `CModel.cc`
(absent from this slice), following spec §4.4 ("Forced mode"): identical flow
but the per-stage ellipses are taken verbatim from the reference result and
the stages degenerate to amplitude-only fits; the fit regions are derived
from the reference's regions (identity transform here, there being a single
coordinate system in the model).  A reference whose stage ellipses were never
populated provides no usable seed shape (`NO_SHAPE`).
-/
def applyForcedScaled (_ctrl : CModelControl) (oracles : NumericOracles) (_img : ImageData)
    (_fp : Finset Pixel) (psf : Option PsfApprox) (reference : CModelResult)
    (scale : ℚ) : CModelResult :=
  match reference.initial.ellipse, reference.exp.ellipse, reference.dev.ellipse with
  | some initE, some expE, some devE =>
    match psf with
    | none =>
        mkResult CModelStageResult.blank CModelStageResult.blank CModelStageResult.blank
          none none none false false false true
    | some _ =>
      let region0 := reference.initialFitRegion.getD ∅
      let regionF := reference.finalFitRegion.getD ∅
      let initS := runForcedStage oracles 0 initE region0 scale
      let expS := runForcedStage oracles 1 expE regionF scale
      let devS := runForcedStage oracles 2 devE regionF scale
      mkResult initS expS devS (some region0) (some regionF)
        (some (combine oracles expE devE regionF scale)) false false false false
  | _, _, _ =>
      mkResult CModelStageResult.blank CModelStageResult.blank CModelStageResult.blank
        none none none false false true false

/-!
## Wall-time recording

Spec §4.2 step 7 records elapsed wall time per stage when `doRecordTime` is
set.  Wall time is not a function of the fit inputs; the model makes the
ambient clock an explicit oracle `clock : ℕ → ℚ` giving the elapsed seconds
of each stage, attached to the stage results that actually ran.
-/

/-- Attach an elapsed-time reading to one stage result, if the stage ran and
the stage configuration asks for it. -/
def insertStageTime (cfg : CModelStageControl) (t : ℚ) (s : CModelStageResult) :
    CModelStageResult :=
  if cfg.doRecordTime && s.ellipse.isSome then { s with time := t } else s

/-- Attach the clock readings of the three stages to a result. -/
def insertTimes (ctrl : CModelControl) (clock : ℕ → ℚ) (r : CModelResult) : CModelResult :=
  { r with
    initial := insertStageTime ctrl.initial (clock 0) r.initial
    exp := insertStageTime ctrl.exp (clock 1) r.exp
    dev := insertStageTime ctrl.dev (clock 2) r.dev }

/-- Erase the elapsed-time fields of a result (the fields wall time touches). -/
def stripTimes (r : CModelResult) : CModelResult :=
  { r with
    initial := { r.initial with time := 0 }
    exp := { r.exp with time := 0 }
    dev := { r.dev with time := 0 } }

/-- `CModelAlgorithm::apply` with the local unit system already fixed. -/
def applyWithScale (ctrl : CModelControl) (oracles : NumericOracles) (clock : ℕ → ℚ)
    (img : ImageData) (fp : Finset Pixel) (psf : Option PsfApprox)
    (moments : Option Ellipse) (scale : ℚ) : CModelResult :=
  insertTimes ctrl clock (applyScaled ctrl oracles img fp psf moments scale)

/-- `CModelAlgorithm::apply`: fix the local unit system from `approxFlux`
(substituting the footprint flux sum when it is non-positive), then run the
full pipeline. -/
def apply (ctrl : CModelControl) (oracles : NumericOracles) (clock : ℕ → ℚ)
    (img : ImageData) (fp : Finset Pixel) (psf : Option PsfApprox)
    (moments : Option Ellipse) (approxFlux : ℚ) : CModelResult :=
  applyWithScale ctrl oracles clock img fp psf moments
    (effectiveApproxFlux approxFlux (footprintFluxSum img fp))

/-- `CModelAlgorithm::applyForced` with the local unit system already fixed. -/
def applyForcedWithScale (ctrl : CModelControl) (oracles : NumericOracles) (clock : ℕ → ℚ)
    (img : ImageData) (fp : Finset Pixel) (psf : Option PsfApprox)
    (reference : CModelResult) (scale : ℚ) : CModelResult :=
  insertTimes ctrl clock (applyForcedScaled ctrl oracles img fp psf reference scale)

/-- `CModelAlgorithm::applyForced`: fix the local unit system from
`approxFlux` (substituting the footprint flux sum when it is non-positive),
then run the forced pipeline against the reference result. -/
def applyForced (ctrl : CModelControl) (oracles : NumericOracles) (clock : ℕ → ℚ)
    (img : ImageData) (fp : Finset Pixel) (psf : Option PsfApprox)
    (reference : CModelResult) (approxFlux : ℚ) : CModelResult :=
  applyForcedWithScale ctrl oracles clock img fp psf reference
    (effectiveApproxFlux approxFlux (footprintFluxSum img fp))

/-!
## PointSourceMorphology (embedded from the inline code in
`components/PointSourceMorphology.h`)
-/

/-- The parameter storage of a `Morphology` component: shared linear and
nonlinear parameter vectors plus a start offset. -/
structure Morphology where
  linearParameters : List ℚ
  nonlinearParameters : List ℚ
  start : ℕ
deriving DecidableEq

/-- `PointSourceMorphology::create(flux)`: a one-element linear parameter
vector holding the flux, an empty nonlinear parameter vector, start 0. -/
def PointSourceMorphology.create (flux : ℚ) : Morphology :=
  { linearParameters := [flux], nonlinearParameters := [], start := 0 }

/-- `PointSourceMorphology::getFlux`: dereference of the first element of the
linear parameter vector. -/
def PointSourceMorphology.getFlux (m : Morphology) : ℚ :=
  m.linearParameters.headD 0

/-- `PointSourceMorphology::getNonlinearParameterSize`: the constant
`NONLINEAR_SIZE = 0`. -/
def PointSourceMorphology.getNonlinearParameterSize (_ : Morphology) : Int :=
  0

/-!
## Basic lemmas about time insertion and result assembly
-/

/-- Time insertion touches only the `time` field of a stage result. -/
theorem insertStageTime_flags (cfg : CModelStageControl) (t : ℚ) (s : CModelStageResult) :
    (insertStageTime cfg t s).flags = s.flags := by
  unfold insertStageTime
  split <;> rfl

/-- Time insertion touches only the `time` field of a stage result. -/
theorem insertStageTime_ellipse (cfg : CModelStageControl) (t : ℚ) (s : CModelStageResult) :
    (insertStageTime cfg t s).ellipse = s.ellipse := by
  unfold insertStageTime
  split <;> rfl

/-- Time insertion leaves the aggregate failure flag unchanged. -/
theorem insertTimes_failed (ctrl : CModelControl) (clock : ℕ → ℚ) (r : CModelResult) :
    (insertTimes ctrl clock r).failed = r.failed := rfl

/-- Time insertion leaves the aggregate blend fraction unchanged. -/
theorem insertTimes_fracDev (ctrl : CModelControl) (clock : ℕ → ℚ) (r : CModelResult) :
    (insertTimes ctrl clock r).fracDev = r.fracDev := rfl

/-- Time insertion leaves the per-stage flag sets unchanged. -/
theorem insertTimes_stage_flags (ctrl : CModelControl) (clock : ℕ → ℚ) (r : CModelResult) :
    (insertTimes ctrl clock r).initial.flags = r.initial.flags ∧
    (insertTimes ctrl clock r).exp.flags = r.exp.flags ∧
    (insertTimes ctrl clock r).dev.flags = r.dev.flags :=
  ⟨insertStageTime_flags _ _ _, insertStageTime_flags _ _ _, insertStageTime_flags _ _ _⟩

/-- Time insertion leaves the per-stage ellipses unchanged. -/
theorem insertTimes_stage_ellipses (ctrl : CModelControl) (clock : ℕ → ℚ) (r : CModelResult) :
    (insertTimes ctrl clock r).initial.ellipse = r.initial.ellipse ∧
    (insertTimes ctrl clock r).exp.ellipse = r.exp.ellipse ∧
    (insertTimes ctrl clock r).dev.ellipse = r.dev.ellipse :=
  ⟨insertStageTime_ellipse _ _ _, insertStageTime_ellipse _ _ _, insertStageTime_ellipse _ _ _⟩

/-- Erasing the time fields absorbs any previous time insertion. -/
theorem stripTimes_insertTimes (ctrl : CModelControl) (clock : ℕ → ℚ) (r : CModelResult) :
    stripTimes (insertTimes ctrl clock r) = stripTimes r := by
  unfold stripTimes insertTimes insertStageTime
  split <;> split <;> split <;> rfl

/-!
## Concrete fixtures used by the witnesses and counterexamples
-/

/-- A concrete unit-circle ellipse. -/
def testEllipse : Ellipse := ⟨0, 0, 1, 1⟩

/-- Concrete numeric oracles: the optimizer always converges on
`testEllipse`, the amplitude solves return flux 1, and the constrained
combination returns amplitudes (1, 1). -/
def testOracles : NumericOracles :=
  { opt := fun _ _ _ => ⟨[1], testEllipse, 0, .converged⟩
    ampSolve := fun _ _ _ _ => (1, 1)
    combineSolve := fun _ _ _ _ =>
      ⟨1, 1, 1, 0, by norm_num, by norm_num⟩ }

/-- A concrete mask: an 11×11 bounding box with no flagged planes. -/
def testMask : MaskModel := ⟨⟨-5, -5, 5, 5⟩, []⟩

/-- A concrete exposure with unit pixel values. -/
def testImage : ImageData := ⟨testMask, fun _ => 1⟩

/-- A one-pixel footprint at the origin. -/
def testFootprint : Finset Pixel := {(0, 0)}

/-- A small region configuration: no footprint growth and no final-region
extension, with the other defaults. -/
def testRegionCtrl : CModelRegionControl :=
  { CModelRegionControl.default with nGrowFootprint := 0, nInitialRadii := 0 }

/-- A region configuration with a positive (unit) final-region radius
multiple. -/
def unitRadiusRegionCtrl : CModelRegionControl :=
  { CModelRegionControl.default with nGrowFootprint := 0, nInitialRadii := 1 }

/-- The default configuration with the small region configuration. -/
def testCtrl : CModelControl := { CModelControl.default with region := testRegionCtrl }

/-- A PSF approximation with a one-pixel bounding box. -/
def testPsf : PsfApprox := ⟨⟨0, 0, 0, 0⟩⟩

/-- A clock oracle reading 0 seconds for every stage. -/
def testClock : ℕ → ℚ := fun _ => 0

/-- A clock oracle reading 1 second for every stage. -/
def testClockB : ℕ → ℚ := fun _ => 1

/-- A configuration whose area ceiling is negative, so every region
determination fails with the area flag. -/
def testFailCtrl : CModelControl :=
  { testCtrl with region := { testRegionCtrl with maxArea := -1 } }

/-- A reference result whose three stage ellipses are populated. -/
def testReference : CModelResult :=
  mkResult
    { CModelStageResult.blank with ellipse := some testEllipse }
    { CModelStageResult.blank with ellipse := some testEllipse }
    { CModelStageResult.blank with ellipse := some testEllipse }
    (some {(0, 0)}) (some {(0, 0)}) none false false false false

/-- A configuration violating the claimed component-count ordering:
the default initial stage (3 components) against an exp stage reduced to
2 components. -/
def badOrderingCtrl : CModelControl :=
  { CModelControl.default with
    exp := { CModelStageControl.default with nComponents := 2 } }

/-!
## Claims
-/

/--
C10: For every flux value `f`, `PointSourceMorphology::create(f)`
constructs a morphology whose `getFlux()` returns exactly `f`, whose linear
parameter vector has exactly one element, and whose nonlinear parameter size
is 0.
-/
theorem c10_point_source_create (flux : ℚ) :
    PointSourceMorphology.getFlux (PointSourceMorphology.create flux) = flux ∧
    (PointSourceMorphology.create flux).linearParameters.length = 1 ∧
    PointSourceMorphology.getNonlinearParameterSize (PointSourceMorphology.create flux) = 0 :=
  ⟨rfl, rfl, rfl⟩

/--
C8, counterexample: It is not the case that every value of
`CModelControl` has its initial stage's component count bounded by the exp
and dev stages': the struct's fields are freely assignable and nothing
validates the ordering, so a configuration with `exp.nComponents = 2` under
the default `initial.nComponents = 3` violates it.
-/
theorem c8_counterexample :
    ¬ ∀ ctrl : CModelControl,
        ctrl.initial.nComponents ≤ ctrl.exp.nComponents ∧
        ctrl.initial.nComponents ≤ ctrl.dev.nComponents := by
  intro h
  exact absurd (h badOrderingCtrl).1 (by decide)

/--
C8, amended: The default-constructed `CModelControl` — the constructor
at `CModelFit.h` lines 395–403, which sets `initial.nComponents = 3` against
the stage default of 8 — satisfies the component-count ordering: the initial
stage's count is at most the exp stage's and the dev stage's.
-/
theorem c8_default_component_ordering :
    CModelControl.default.initial.nComponents ≤ CModelControl.default.exp.nComponents ∧
    CModelControl.default.initial.nComponents ≤ CModelControl.default.dev.nComponents := by
  decide

/--
C3: For every stage result produced by the stage runner, a set
`NUMERIC_ERROR` or `MAX_ITERATIONS` flag forces the per-stage `FAILED` flag,
while a set `TR_SMALL` flag on its own (neither of the other two set) leaves
`FAILED` clear.
-/
theorem c3_stage_flag_implications (oracles : NumericOracles) (idx : ℕ) (warm : List ℚ)
    (region : Finset Pixel) (scale : ℚ) :
    ((runStage oracles idx warm region scale).flags.numericError = true ∨
        (runStage oracles idx warm region scale).flags.maxIterationsReached = true →
      (runStage oracles idx warm region scale).flags.failed = true) ∧
    ((runStage oracles idx warm region scale).flags.trSmall = true ∧
        (runStage oracles idx warm region scale).flags.numericError = false ∧
        (runStage oracles idx warm region scale).flags.maxIterationsReached = false →
      (runStage oracles idx warm region scale).flags.failed = false) := by
  have hf : (runStage oracles idx warm region scale).flags =
      flagsOfStatus (oracles.opt idx warm region).status := rfl
  rw [hf]
  cases (oracles.opt idx warm region).status <;>
    simp [flagsOfStatus, CModelStageFlags.clear]

/-- Oracles whose optimizer reports a numeric failure. -/
def numericFailureOracles : NumericOracles :=
  { testOracles with opt := fun _ _ _ => ⟨[1], testEllipse, 0, .numericFailure⟩ }

/-- Oracles whose optimizer stops on a collapsed trust region. -/
def trSmallOracles : NumericOracles :=
  { testOracles with opt := fun _ _ _ => ⟨[1], testEllipse, 0, .trustRegionSmall⟩ }

/-- Witness for C3: a numeric-failure stage is failed, and a
collapsed-trust-region stage is not. -/
theorem c3_stage_flag_witness :
    (runStage numericFailureOracles 0 [] ∅ 1).flags.failed = true ∧
    (runStage trSmallOracles 0 [] ∅ 1).flags.failed = false :=
  ⟨(c3_stage_flag_implications numericFailureOracles 0 [] ∅ 1).1 (Or.inl (by decide)),
   (c3_stage_flag_implications trSmallOracles 0 [] ∅ 1).2 ⟨by decide, by decide, by decide⟩⟩

/--
C7: For every invocation of `apply` or `applyForced`, a non-positive
`approxFlux` is replaced by the sum of the flux within the footprint when
fixing the local fit coordinate system, while a positive `approxFlux` is
used as given.
-/
theorem c7_effective_approx_flux :
    (∀ (ctrl : CModelControl) (oracles : NumericOracles) (clock : ℕ → ℚ)
        (img : ImageData) (fp : Finset Pixel) (psf : Option PsfApprox)
        (moments : Option Ellipse) (approxFlux : ℚ),
      (approxFlux ≤ 0 →
        apply ctrl oracles clock img fp psf moments approxFlux =
          applyWithScale ctrl oracles clock img fp psf moments (footprintFluxSum img fp)) ∧
      (0 < approxFlux →
        apply ctrl oracles clock img fp psf moments approxFlux =
          applyWithScale ctrl oracles clock img fp psf moments approxFlux)) ∧
    (∀ (ctrl : CModelControl) (oracles : NumericOracles) (clock : ℕ → ℚ)
        (img : ImageData) (fp : Finset Pixel) (psf : Option PsfApprox)
        (reference : CModelResult) (approxFlux : ℚ),
      (approxFlux ≤ 0 →
        applyForced ctrl oracles clock img fp psf reference approxFlux =
          applyForcedWithScale ctrl oracles clock img fp psf reference
            (footprintFluxSum img fp)) ∧
      (0 < approxFlux →
        applyForced ctrl oracles clock img fp psf reference approxFlux =
          applyForcedWithScale ctrl oracles clock img fp psf reference approxFlux)) := by
  constructor
  · intro ctrl oracles clock img fp psf moments approxFlux
    constructor
    · intro h
      unfold apply effectiveApproxFlux
      rw [if_pos h]
    · intro h
      unfold apply effectiveApproxFlux
      rw [if_neg (not_le.mpr h)]
  · intro ctrl oracles clock img fp psf reference approxFlux
    constructor
    · intro h
      unfold applyForced effectiveApproxFlux
      rw [if_pos h]
    · intro h
      unfold applyForced effectiveApproxFlux
      rw [if_neg (not_le.mpr h)]

/-- Witness for C7: at `approxFlux = -1` the footprint flux sum is used, at
`approxFlux = 1` the given value is used, in both modes. -/
theorem c7_effective_approx_flux_witness :
    apply testCtrl testOracles testClock testImage testFootprint (some testPsf)
        (some testEllipse) (-1) =
      applyWithScale testCtrl testOracles testClock testImage testFootprint (some testPsf)
        (some testEllipse) (footprintFluxSum testImage testFootprint) ∧
    apply testCtrl testOracles testClock testImage testFootprint (some testPsf)
        (some testEllipse) 1 =
      applyWithScale testCtrl testOracles testClock testImage testFootprint (some testPsf)
        (some testEllipse) 1 ∧
    applyForced testCtrl testOracles testClock testImage testFootprint (some testPsf)
        testReference (-1) =
      applyForcedWithScale testCtrl testOracles testClock testImage testFootprint
        (some testPsf) testReference (footprintFluxSum testImage testFootprint) :=
  ⟨(c7_effective_approx_flux.1 testCtrl testOracles testClock testImage testFootprint
      (some testPsf) (some testEllipse) (-1)).1 (by norm_num),
   (c7_effective_approx_flux.1 testCtrl testOracles testClock testImage testFootprint
      (some testPsf) (some testEllipse) 1).2 (by norm_num),
   (c7_effective_approx_flux.2 testCtrl testOracles testClock testImage testFootprint
      (some testPsf) testReference (-1)).1 (by norm_num)⟩

/-!
## Region determination claims
-/

/-- For a non-degenerate ellipse and positive radius multiple, membership in
`ellipsePixels` is exactly the `withinRadii` condition: the bounding-box
pre-filter loses no pixel satisfying the ellipse inequality. -/
theorem mem_ellipsePixels {k : ℚ} {e : Ellipse} {p : Pixel}
    (hk : 0 < k) (hrx : 0 < e.rx) (hry : 0 < e.ry) :
    p ∈ ellipsePixels k e ↔ withinRadii k e p := by
  unfold ellipsePixels
  rw [Finset.mem_filter]
  constructor
  · exact fun h => h.2
  · intro h
    refine ⟨?_, h⟩
    have hkrx : 0 < k * e.rx := mul_pos hk hrx
    have hkry : 0 < k * e.ry := mul_pos hk hry
    unfold withinRadii at h
    have hy0 : 0 ≤ ((p.2 : ℚ) - e.cy) ^ 2 * (k * e.rx) ^ 2 := by positivity
    have hx0 : 0 ≤ ((p.1 : ℚ) - e.cx) ^ 2 * (k * e.ry) ^ 2 := by positivity
    have hx2 : ((p.1 : ℚ) - e.cx) ^ 2 ≤ (k * e.rx) ^ 2 := by
      have hry2 : 0 < (k * e.ry) ^ 2 := by positivity
      nlinarith [h, hy0, hry2]
    have hy2 : ((p.2 : ℚ) - e.cy) ^ 2 ≤ (k * e.ry) ^ 2 := by
      have hrx2 : 0 < (k * e.rx) ^ 2 := by positivity
      nlinarith [h, hx0, hrx2]
    rw [Finset.mem_product, Finset.mem_Icc, Finset.mem_Icc]
    refine ⟨⟨?_, ?_⟩, ?_, ?_⟩
    · rw [Int.ceil_le]
      nlinarith [hx2, sq_nonneg ((p.1 : ℚ) - e.cx + k * e.rx), hkrx]
    · rw [Int.le_floor]
      nlinarith [hx2, sq_nonneg ((p.1 : ℚ) - e.cx - k * e.rx), hkrx]
    · rw [Int.ceil_le]
      nlinarith [hy2, sq_nonneg ((p.2 : ℚ) - e.cy + k * e.ry), hkry]
    · rw [Int.le_floor]
      nlinarith [hy2, sq_nonneg ((p.2 : ℚ) - e.cy - k * e.ry), hkry]

/-- Characterization of the shared region-determination core: it fails
exactly when the area or bad-fraction ceiling is exceeded, and on success it
returns the clipped, bad-pixel-stripped region. -/
theorem determineFitRegion_spec (rc : CModelRegionControl) (mask : MaskModel)
    (fp : Finset Pixel) (psfBBox : Box2I) (extra : Finset Pixel) :
    ((∃ err, determineFitRegion rc mask fp psfBBox extra = .error err) ↔
      (areaExceeded rc mask fp psfBBox extra ∨ badFractionExceeded rc mask fp psfBBox extra)) ∧
    (∀ R, determineFitRegion rc mask fp psfBBox extra = .ok R →
      R = regionGood rc mask fp psfBBox extra) := by
  unfold determineFitRegion
  split_ifs with h1 h2
  · refine ⟨⟨fun _ => Or.inl h1, fun _ => ⟨.maxArea, rfl⟩⟩, ?_⟩
    intro R hR
    exact absurd hR (by simp)
  · refine ⟨⟨fun _ => Or.inr h2, fun _ => ⟨.maxBadPixelFraction, rfl⟩⟩, ?_⟩
    intro R hR
    exact absurd hR (by simp)
  · refine ⟨⟨?_, ?_⟩, ?_⟩
    · rintro ⟨err, herr⟩
      exact absurd herr (by simp)
    · rintro (h | h)
      · exact absurd h h1
      · exact absurd h h2
    · intro R hR
      injection hR with h
      exact h.symm

/--
C4: `determineInitialFitRegion` grows the footprint by the configured
margin, unions with the PSF bounding box when configured, clips on the mask's
bounds and removes configured bad-plane pixels (the value returned on success
is exactly `regionGood` over the empty extension); it raises an error if and
only if the retained area exceeds `maxArea` or the excluded fraction exceeds
`maxBadPixelFraction`; and on error no fit is attempted: no stage of `apply`
runs and no linear combination is produced.
-/
theorem c4_initial_region_characterization :
    (∀ (rc : CModelRegionControl) (mask : MaskModel) (fp : Finset Pixel) (psfBBox : Box2I),
      ((∃ err, determineInitialFitRegion rc mask fp psfBBox = .error err) ↔
        (areaExceeded rc mask fp psfBBox ∅ ∨ badFractionExceeded rc mask fp psfBBox ∅)) ∧
      (∀ R, determineInitialFitRegion rc mask fp psfBBox = .ok R →
        R = regionGood rc mask fp psfBBox ∅)) ∧
    (∀ (ctrl : CModelControl) (oracles : NumericOracles) (clock : ℕ → ℚ)
        (img : ImageData) (fp : Finset Pixel) (psfA : PsfApprox)
        (moments : Option Ellipse) (approxFlux : ℚ) (err : RegionFailure),
      determineInitialFitRegion ctrl.region img.mask fp psfA.bbox = .error err →
      (apply ctrl oracles clock img fp (some psfA) moments approxFlux).initial.ellipse = none ∧
      (apply ctrl oracles clock img fp (some psfA) moments approxFlux).exp.ellipse = none ∧
      (apply ctrl oracles clock img fp (some psfA) moments approxFlux).dev.ellipse = none ∧
      (apply ctrl oracles clock img fp (some psfA) moments approxFlux).fracDev = none) := by
  constructor
  · intro rc mask fp psfBBox
    exact determineFitRegion_spec rc mask fp psfBBox ∅
  · intro ctrl oracles clock img fp psfA moments approxFlux err herr
    unfold apply applyWithScale
    rw [(insertTimes_stage_ellipses _ _ _).1, (insertTimes_stage_ellipses _ _ _).2.1,
      (insertTimes_stage_ellipses _ _ _).2.2, insertTimes_fracDev]
    unfold applyScaled
    rcases moments with _ | mom
    · exact ⟨rfl, rfl, rfl, rfl⟩
    · cases err <;> simp only [herr] <;> exact ⟨rfl, rfl, rfl, rfl⟩

/-- On the fixture the initial-region area check passes (integer-only
computation). -/
theorem fixture_area_ok :
    ¬ areaExceeded testRegionCtrl testMask testFootprint testPsf.bbox ∅ := by
  decide

/-- On the fixture the bad-fraction check passes: the candidate has one pixel
and no bad pixels. -/
theorem fixture_fraction_ok :
    ¬ badFractionExceeded testRegionCtrl testMask testFootprint testPsf.bbox ∅ := by
  have hc : (regionCandidate testRegionCtrl testMask testFootprint testPsf.bbox ∅).card = 1 := by
    decide
  have hb : ((regionCandidate testRegionCtrl testMask testFootprint testPsf.bbox ∅) ∩
      badPixels testRegionCtrl testMask).card = 0 := by
    decide
  unfold badFractionExceeded
  rw [hc, hb]
  norm_num [testRegionCtrl, CModelRegionControl.default]

/-- Concrete evaluation: the initial fit region of the one-pixel fixture. -/
theorem fixture_initial_region :
    determineInitialFitRegion testRegionCtrl testMask testFootprint testPsf.bbox =
      .ok {(0, 0)} := by
  unfold determineInitialFitRegion determineFitRegion
  rw [if_neg fixture_area_ok, if_neg fixture_fraction_ok]
  have : regionGood testRegionCtrl testMask testFootprint testPsf.bbox ∅ = {(0, 0)} := by
    decide
  rw [this]

/-- Concrete evaluation: with a negative area ceiling the initial region
determination fails with the area error. -/
theorem fixture_initial_region_failure :
    determineInitialFitRegion testFailCtrl.region testImage.mask testFootprint testPsf.bbox =
      .error .maxArea := by
  have h : areaExceeded testFailCtrl.region testImage.mask testFootprint testPsf.bbox ∅ := by
    decide
  unfold determineInitialFitRegion determineFitRegion
  rw [if_pos h]

/-- Witness for C4: on the one-pixel fixture the initial region succeeds and
equals `regionGood`; with a negative area ceiling it errors and `apply`
records no stage ellipse and no blend fraction. -/
theorem c4_initial_region_witness :
    ({(0, 0)} : Finset Pixel) = regionGood testRegionCtrl testMask testFootprint testPsf.bbox ∅ ∧
    ((apply testFailCtrl testOracles testClock testImage testFootprint (some testPsf)
        (some testEllipse) 1).initial.ellipse = none ∧
      (apply testFailCtrl testOracles testClock testImage testFootprint (some testPsf)
        (some testEllipse) 1).exp.ellipse = none ∧
      (apply testFailCtrl testOracles testClock testImage testFootprint (some testPsf)
        (some testEllipse) 1).dev.ellipse = none ∧
      (apply testFailCtrl testOracles testClock testImage testFootprint (some testPsf)
        (some testEllipse) 1).fracDev = none) :=
  ⟨(c4_initial_region_characterization.1 testRegionCtrl testMask testFootprint
      testPsf.bbox).2 {(0, 0)} fixture_initial_region,
   c4_initial_region_characterization.2 testFailCtrl testOracles testClock testImage
      testFootprint testPsf (some testEllipse) 1 .maxArea fixture_initial_region_failure⟩

/--
C5: `determineFinalFitRegion` applies the same growth, union, clipping
and bad-mask-exclusion logic as the initial region selection (both are the
shared core, the final one extended by the pixels within `nInitialRadii`
ellipse radii), fails under exactly the same area and bad-fraction conditions
(over the extended candidate); and for a non-degenerate ellipse every pixel
within the configured radius multiple that survives clipping and bad-pixel
removal belongs to the retained final region.
-/
theorem c5_final_region_characterization :
    (∀ (rc : CModelRegionControl) (mask : MaskModel) (fp : Finset Pixel)
        (psfBBox : Box2I) (e : Ellipse),
      determineFinalFitRegion rc mask fp psfBBox e =
        determineFitRegion rc mask fp psfBBox (ellipsePixels rc.nInitialRadii e) ∧
      determineInitialFitRegion rc mask fp psfBBox =
        determineFitRegion rc mask fp psfBBox ∅ ∧
      ((∃ err, determineFinalFitRegion rc mask fp psfBBox e = .error err) ↔
        (areaExceeded rc mask fp psfBBox (ellipsePixels rc.nInitialRadii e) ∨
          badFractionExceeded rc mask fp psfBBox (ellipsePixels rc.nInitialRadii e))) ∧
      (∀ R, determineFinalFitRegion rc mask fp psfBBox e = .ok R →
        R = regionGood rc mask fp psfBBox (ellipsePixels rc.nInitialRadii e))) ∧
    (∀ (rc : CModelRegionControl) (mask : MaskModel) (fp : Finset Pixel)
        (psfBBox : Box2I) (e : Ellipse) (p : Pixel),
      0 < rc.nInitialRadii → 0 < e.rx → 0 < e.ry →
      withinRadii rc.nInitialRadii e p → mask.bbox.contains p →
      p ∉ badPixels rc mask →
      p ∈ regionGood rc mask fp psfBBox (ellipsePixels rc.nInitialRadii e)) := by
  constructor
  · intro rc mask fp psfBBox e
    exact ⟨rfl, rfl,
      (determineFitRegion_spec rc mask fp psfBBox (ellipsePixels rc.nInitialRadii e)).1,
      (determineFitRegion_spec rc mask fp psfBBox (ellipsePixels rc.nInitialRadii e)).2⟩
  · intro rc mask fp psfBBox e p hk hrx hry hwithin hbox hbad
    unfold regionGood regionCandidate
    rw [Finset.mem_sdiff, Finset.mem_filter]
    refine ⟨⟨Finset.mem_union_right _ ?_, hbox⟩, hbad⟩
    exact (mem_ellipsePixels hk hrx hry).mpr hwithin

/-- Witness for C5: on the fixture with radius multiple 1 and the unit
ellipse, the pixel (1, 0) lies within one radius, inside the mask bounds, is
not bad, and indeed belongs to the retained final region. -/
theorem c5_final_region_witness :
    ((1 : Int), (0 : Int)) ∈
      regionGood unitRadiusRegionCtrl testMask testFootprint testPsf.bbox
        (ellipsePixels unitRadiusRegionCtrl.nInitialRadii testEllipse) :=
  c5_final_region_characterization.2 unitRadiusRegionCtrl testMask testFootprint testPsf.bbox
    testEllipse (1, 0)
    (by norm_num [unitRadiusRegionCtrl, CModelRegionControl.default])
    (by norm_num [testEllipse])
    (by norm_num [testEllipse])
    (by norm_num [withinRadii, testEllipse, unitRadiusRegionCtrl, CModelRegionControl.default])
    (by decide)
    (by decide)

/-!
## Concrete evaluation of the full pipeline on the fixture
-/

/-- With a zero radius multiple the ellipse extension is the single center
pixel. -/
theorem fixture_ellipse_pixels : ellipsePixels (0 : ℚ) testEllipse = {(0, 0)} := by
  unfold ellipsePixels testEllipse
  norm_num [Finset.Icc_self, Finset.singleton_product_singleton, Finset.filter_singleton,
    withinRadii]

/-- On the fixture the final-region area check passes. -/
theorem fixture_final_area_ok :
    ¬ areaExceeded testRegionCtrl testMask testFootprint testPsf.bbox ({(0, 0)} : Finset Pixel) := by
  decide

/-- On the fixture the final-region bad-fraction check passes. -/
theorem fixture_final_fraction_ok :
    ¬ badFractionExceeded testRegionCtrl testMask testFootprint testPsf.bbox
      ({(0, 0)} : Finset Pixel) := by
  have hc : (regionCandidate testRegionCtrl testMask testFootprint testPsf.bbox
      ({(0, 0)} : Finset Pixel)).card = 1 := by
    decide
  have hb : ((regionCandidate testRegionCtrl testMask testFootprint testPsf.bbox
      ({(0, 0)} : Finset Pixel)) ∩ badPixels testRegionCtrl testMask).card = 0 := by
    decide
  unfold badFractionExceeded
  rw [hc, hb]
  norm_num [testRegionCtrl, CModelRegionControl.default]

/-- Concrete evaluation: the final fit region of the one-pixel fixture. -/
theorem fixture_final_region :
    determineFinalFitRegion testRegionCtrl testMask testFootprint testPsf.bbox testEllipse =
      .ok {(0, 0)} := by
  unfold determineFinalFitRegion
  have hk : testRegionCtrl.nInitialRadii = 0 := rfl
  rw [hk, fixture_ellipse_pixels]
  unfold determineFitRegion
  rw [if_neg fixture_final_area_ok, if_neg fixture_final_fraction_ok]
  have : regionGood testRegionCtrl testMask testFootprint testPsf.bbox
      ({(0, 0)} : Finset Pixel) = {(0, 0)} := by
    decide
  rw [this]

/-- The fixture's initial stage result. -/
def fixInit : CModelStageResult :=
  runStage testOracles 0 (nonlinearOfEllipse testEllipse) {(0, 0)} 1

/-- The fixture's exp stage result, warm-started from the initial stage. -/
def fixExp : CModelStageResult := runStage testOracles 1 fixInit.nonlinear {(0, 0)} 1

/-- The fixture's dev stage result, warm-started from the initial stage. -/
def fixDev : CModelStageResult := runStage testOracles 2 fixInit.nonlinear {(0, 0)} 1

/-- The fixture's final linear combination output. -/
def fixCombine : CombineOutput :=
  combine testOracles (fixExp.ellipse.getD testEllipse) (fixDev.ellipse.getD testEllipse)
    {(0, 0)} 1

/-- The fixture's full pipeline result under a given clock. -/
def fixResult (clock : ℕ → ℚ) : CModelResult :=
  insertTimes testCtrl clock
    (mkResult fixInit fixExp fixDev (some {(0, 0)}) (some {(0, 0)}) (some fixCombine)
      false false false false)

/-- Concrete evaluation of the scaled pipeline body on the fixture. -/
theorem applyScaled_fixture :
    applyScaled testCtrl testOracles testImage testFootprint (some testPsf) (some testEllipse) 1 =
      mkResult fixInit fixExp fixDev (some {(0, 0)}) (some {(0, 0)}) (some fixCombine)
        false false false false := by
  unfold applyScaled
  have h1 : testCtrl.region = testRegionCtrl := rfl
  have h2 : testImage.mask = testMask := rfl
  rw [h1, h2]
  have hE : (runStage testOracles 0 (nonlinearOfEllipse testEllipse)
      ({(0, 0)} : Finset Pixel) 1).ellipse.getD testEllipse = testEllipse := rfl
  have hFail : ((runStage testOracles 1 (runStage testOracles 0
        (nonlinearOfEllipse testEllipse) ({(0, 0)} : Finset Pixel) 1).nonlinear
        ({(0, 0)} : Finset Pixel) 1).flags.failed ||
      (runStage testOracles 2 (runStage testOracles 0
        (nonlinearOfEllipse testEllipse) ({(0, 0)} : Finset Pixel) 1).nonlinear
        ({(0, 0)} : Finset Pixel) 1).flags.failed) = false := rfl
  simp only [fixture_initial_region, hE, fixture_final_region, hFail]
  rfl

/-- Concrete evaluation of the full pipeline on the fixture, for any clock. -/
theorem apply_fixture_eq (clock : ℕ → ℚ) :
    apply testCtrl testOracles clock testImage testFootprint (some testPsf)
        (some testEllipse) 1 = fixResult clock := by
  unfold apply applyWithScale fixResult
  have hs : effectiveApproxFlux 1 (footprintFluxSum testImage testFootprint) = 1 := by
    unfold effectiveApproxFlux
    norm_num
  rw [hs, applyScaled_fixture]

/-!
## The blend fraction (C1)
-/

/-- For non-negative amplitudes the blend fraction `b / (a + b)` lies in the
unit interval (including the degenerate zero-total case, where rational
division by zero yields 0). -/
theorem blend_fraction_bounds (a b : ℚ) (ha : 0 ≤ a) (hb : 0 ≤ b) :
    0 ≤ b / (a + b) ∧ b / (a + b) ≤ 1 := by
  rcases eq_or_lt_of_le (add_nonneg ha hb) with h | h
  · rw [← h, div_zero]
    norm_num
  · exact ⟨div_nonneg hb h.le, by rw [div_le_one h]; linarith⟩

/-- The fraction produced by any `combine` call lies in the unit interval. -/
theorem combine_fracDev_bounds (oracles : NumericOracles) (eE eD : Ellipse)
    (region : Finset Pixel) (scale : ℚ) :
    0 ≤ (combine oracles eE eD region scale).fracDev ∧
      (combine oracles eE eD region scale).fracDev ≤ 1 :=
  blend_fraction_bounds _ _ (oracles.combineSolve eE eD region scale).ampExpNonneg
    (oracles.combineSolve eE eD region scale).ampDevNonneg

/-- The blend fraction of `apply` is that of the scaled pipeline body. -/
theorem apply_fracDev_eq (ctrl : CModelControl) (oracles : NumericOracles) (clock : ℕ → ℚ)
    (img : ImageData) (fp : Finset Pixel) (psf : Option PsfApprox)
    (moments : Option Ellipse) (approxFlux : ℚ) :
    (apply ctrl oracles clock img fp psf moments approxFlux).fracDev =
      (applyScaled ctrl oracles img fp psf moments
        (effectiveApproxFlux approxFlux (footprintFluxSum img fp))).fracDev := rfl

/-- The blend fraction of `applyForced` is that of the scaled forced body. -/
theorem applyForced_fracDev_eq (ctrl : CModelControl) (oracles : NumericOracles)
    (clock : ℕ → ℚ) (img : ImageData) (fp : Finset Pixel) (psf : Option PsfApprox)
    (reference : CModelResult) (approxFlux : ℚ) :
    (applyForced ctrl oracles clock img fp psf reference approxFlux).fracDev =
      (applyForcedScaled ctrl oracles img fp psf reference
        (effectiveApproxFlux approxFlux (footprintFluxSum img fp))).fracDev := rfl

/--
C1: The final linear combination stores
`fracDev = ampDev / (ampExp + ampDev)` over the amplitudes of the
constrained solve, and it lies in [0, 1]; consequently whenever the
pipeline (standalone or forced) populates the aggregate blend fraction,
the stored value lies in [0, 1].
-/
theorem c1_fracDev_of_linear_combination :
    (∀ (oracles : NumericOracles) (eE eD : Ellipse) (region : Finset Pixel) (scale : ℚ),
      (combine oracles eE eD region scale).fracDev =
        (oracles.combineSolve eE eD region scale).ampDev /
          ((oracles.combineSolve eE eD region scale).ampExp +
            (oracles.combineSolve eE eD region scale).ampDev) ∧
      0 ≤ (combine oracles eE eD region scale).fracDev ∧
      (combine oracles eE eD region scale).fracDev ≤ 1) ∧
    (∀ (ctrl : CModelControl) (oracles : NumericOracles) (clock : ℕ → ℚ) (img : ImageData)
        (fp : Finset Pixel) (psf : Option PsfApprox) (moments : Option Ellipse)
        (approxFlux f : ℚ),
      (apply ctrl oracles clock img fp psf moments approxFlux).fracDev = some f →
      0 ≤ f ∧ f ≤ 1) ∧
    (∀ (ctrl : CModelControl) (oracles : NumericOracles) (clock : ℕ → ℚ) (img : ImageData)
        (fp : Finset Pixel) (psf : Option PsfApprox) (reference : CModelResult)
        (approxFlux f : ℚ),
      (applyForced ctrl oracles clock img fp psf reference approxFlux).fracDev = some f →
      0 ≤ f ∧ f ≤ 1) := by
  refine ⟨?_, ?_, ?_⟩
  · intro oracles eE eD region scale
    exact ⟨rfl, combine_fracDev_bounds oracles eE eD region scale⟩
  · intro ctrl oracles clock img fp psf moments approxFlux f hf
    rw [apply_fracDev_eq] at hf
    unfold applyScaled at hf
    split at hf
    · simp [mkResult] at hf
    split at hf
    · simp [mkResult] at hf
    split at hf
    · simp [mkResult] at hf
    · simp [mkResult] at hf
    dsimp only at hf
    split at hf
    · simp [mkResult] at hf
    · simp [mkResult] at hf
    split at hf
    · simp [mkResult] at hf
    · simp only [mkResult, Option.map_some'] at hf
      rw [Option.some_inj] at hf
      rw [← hf]
      exact combine_fracDev_bounds _ _ _ _ _
  · intro ctrl oracles clock img fp psf reference approxFlux f hf
    rw [applyForced_fracDev_eq] at hf
    unfold applyForcedScaled at hf
    split at hf
    · split at hf
      · simp [mkResult] at hf
      · simp only [mkResult, Option.map_some'] at hf
        rw [Option.some_inj] at hf
        rw [← hf]
        exact combine_fracDev_bounds _ _ _ _ _
    · simp [mkResult] at hf

/-- Witness for C1: the fixture pipeline populates the blend fraction with
the combine output's value, which lies in [0, 1] (it equals 1/2). -/
theorem c1_fracDev_witness :
    (0 ≤ fixCombine.fracDev ∧ fixCombine.fracDev ≤ 1) ∧ fixCombine.fracDev = 1/2 :=
  ⟨c1_fracDev_of_linear_combination.2.1 testCtrl testOracles testClock testImage
      testFootprint (some testPsf) (some testEllipse) 1 fixCombine.fracDev
      (by rw [apply_fixture_eq]; rfl),
   by norm_num [fixCombine, combine, testOracles]⟩

/-!
## The aggregate failure flag (C2)
-/

/-- The result assembly satisfies the aggregate-failure equation by
construction. -/
theorem mkResult_failed_eq (i e d : CModelStageResult) (r0 rF : Option (Finset Pixel))
    (c : Option CombineOutput) (ma mbpf ns nsp : Bool) :
    (mkResult i e d r0 rF c ma mbpf ns nsp).failed =
      ((mkResult i e d r0 rF c ma mbpf ns nsp).initial.flags.failed ||
        (mkResult i e d r0 rF c ma mbpf ns nsp).exp.flags.failed ||
        (mkResult i e d r0 rF c ma mbpf ns nsp).dev.flags.failed ||
        (mkResult i e d r0 rF c ma mbpf ns nsp).maxArea ||
        (mkResult i e d r0 rF c ma mbpf ns nsp).maxBadPixelFraction ||
        (mkResult i e d r0 rF c ma mbpf ns nsp).noShape ||
        (mkResult i e d r0 rF c ma mbpf ns nsp).noShapeletPsf) := rfl

/-- Time insertion leaves the four aggregate-specific flags unchanged. -/
theorem insertTimes_aggregate_flags (ctrl : CModelControl) (clock : ℕ → ℚ) (r : CModelResult) :
    (insertTimes ctrl clock r).maxArea = r.maxArea ∧
    (insertTimes ctrl clock r).maxBadPixelFraction = r.maxBadPixelFraction ∧
    (insertTimes ctrl clock r).noShape = r.noShape ∧
    (insertTimes ctrl clock r).noShapeletPsf = r.noShapeletPsf :=
  ⟨rfl, rfl, rfl, rfl⟩

/-- The aggregate-failure equation survives time insertion. -/
theorem insertTimes_failed_eq (ctrl : CModelControl) (clock : ℕ → ℚ) (r : CModelResult)
    (h : r.failed = (r.initial.flags.failed || r.exp.flags.failed || r.dev.flags.failed ||
      r.maxArea || r.maxBadPixelFraction || r.noShape || r.noShapeletPsf)) :
    (insertTimes ctrl clock r).failed =
      ((insertTimes ctrl clock r).initial.flags.failed ||
        (insertTimes ctrl clock r).exp.flags.failed ||
        (insertTimes ctrl clock r).dev.flags.failed ||
        (insertTimes ctrl clock r).maxArea ||
        (insertTimes ctrl clock r).maxBadPixelFraction ||
        (insertTimes ctrl clock r).noShape ||
        (insertTimes ctrl clock r).noShapeletPsf) := by
  rw [insertTimes_failed, (insertTimes_stage_flags ctrl clock r).1,
    (insertTimes_stage_flags ctrl clock r).2.1, (insertTimes_stage_flags ctrl clock r).2.2,
    (insertTimes_aggregate_flags ctrl clock r).1, (insertTimes_aggregate_flags ctrl clock r).2.1,
    (insertTimes_aggregate_flags ctrl clock r).2.2.1,
    (insertTimes_aggregate_flags ctrl clock r).2.2.2]
  exact h

/-- Every branch of the scaled standalone pipeline satisfies the
aggregate-failure equation. -/
theorem applyScaled_failed_eq (ctrl : CModelControl) (oracles : NumericOracles)
    (img : ImageData) (fp : Finset Pixel) (psf : Option PsfApprox)
    (moments : Option Ellipse) (scale : ℚ) :
    (applyScaled ctrl oracles img fp psf moments scale).failed =
      ((applyScaled ctrl oracles img fp psf moments scale).initial.flags.failed ||
        (applyScaled ctrl oracles img fp psf moments scale).exp.flags.failed ||
        (applyScaled ctrl oracles img fp psf moments scale).dev.flags.failed ||
        (applyScaled ctrl oracles img fp psf moments scale).maxArea ||
        (applyScaled ctrl oracles img fp psf moments scale).maxBadPixelFraction ||
        (applyScaled ctrl oracles img fp psf moments scale).noShape ||
        (applyScaled ctrl oracles img fp psf moments scale).noShapeletPsf) := by
  unfold applyScaled
  split
  · rfl
  split
  · rfl
  split
  · rfl
  · rfl
  dsimp only
  split
  · rfl
  · rfl
  split
  · rfl
  · rfl

/-- Every branch of the scaled forced pipeline satisfies the
aggregate-failure equation. -/
theorem applyForcedScaled_failed_eq (ctrl : CModelControl) (oracles : NumericOracles)
    (img : ImageData) (fp : Finset Pixel) (psf : Option PsfApprox)
    (reference : CModelResult) (scale : ℚ) :
    (applyForcedScaled ctrl oracles img fp psf reference scale).failed =
      ((applyForcedScaled ctrl oracles img fp psf reference scale).initial.flags.failed ||
        (applyForcedScaled ctrl oracles img fp psf reference scale).exp.flags.failed ||
        (applyForcedScaled ctrl oracles img fp psf reference scale).dev.flags.failed ||
        (applyForcedScaled ctrl oracles img fp psf reference scale).maxArea ||
        (applyForcedScaled ctrl oracles img fp psf reference scale).maxBadPixelFraction ||
        (applyForcedScaled ctrl oracles img fp psf reference scale).noShape ||
        (applyForcedScaled ctrl oracles img fp psf reference scale).noShapeletPsf) := by
  unfold applyForcedScaled
  split <;> first
    | rfl
    | (split <;> rfl)

/--
C2: For every aggregate result produced by `apply` or `applyForced`, the
aggregate `FAILED` flag equals the logical OR of the three per-stage `FAILED`
flags and the four aggregate-specific flags (`MAX_AREA`,
`MAX_BAD_PIXEL_FRACTION`, `NO_SHAPE`, `NO_SHAPELET_PSF`): it is set if and
only if at least one of them is set.
-/
theorem c2_aggregate_failed_iff :
    (∀ (ctrl : CModelControl) (oracles : NumericOracles) (clock : ℕ → ℚ) (img : ImageData)
        (fp : Finset Pixel) (psf : Option PsfApprox) (moments : Option Ellipse)
        (approxFlux : ℚ),
      (apply ctrl oracles clock img fp psf moments approxFlux).failed =
        ((apply ctrl oracles clock img fp psf moments approxFlux).initial.flags.failed ||
          (apply ctrl oracles clock img fp psf moments approxFlux).exp.flags.failed ||
          (apply ctrl oracles clock img fp psf moments approxFlux).dev.flags.failed ||
          (apply ctrl oracles clock img fp psf moments approxFlux).maxArea ||
          (apply ctrl oracles clock img fp psf moments approxFlux).maxBadPixelFraction ||
          (apply ctrl oracles clock img fp psf moments approxFlux).noShape ||
          (apply ctrl oracles clock img fp psf moments approxFlux).noShapeletPsf)) ∧
    (∀ (ctrl : CModelControl) (oracles : NumericOracles) (clock : ℕ → ℚ) (img : ImageData)
        (fp : Finset Pixel) (psf : Option PsfApprox) (reference : CModelResult)
        (approxFlux : ℚ),
      (applyForced ctrl oracles clock img fp psf reference approxFlux).failed =
        ((applyForced ctrl oracles clock img fp psf reference approxFlux).initial.flags.failed ||
          (applyForced ctrl oracles clock img fp psf reference approxFlux).exp.flags.failed ||
          (applyForced ctrl oracles clock img fp psf reference approxFlux).dev.flags.failed ||
          (applyForced ctrl oracles clock img fp psf reference approxFlux).maxArea ||
          (applyForced ctrl oracles clock img fp psf reference approxFlux).maxBadPixelFraction ||
          (applyForced ctrl oracles clock img fp psf reference approxFlux).noShape ||
          (applyForced ctrl oracles clock img fp psf reference approxFlux).noShapeletPsf)) := by
  constructor
  · intro ctrl oracles clock img fp psf moments approxFlux
    exact insertTimes_failed_eq ctrl clock _
      (applyScaled_failed_eq ctrl oracles img fp psf moments _)
  · intro ctrl oracles clock img fp psf reference approxFlux
    exact insertTimes_failed_eq ctrl clock _
      (applyForcedScaled_failed_eq ctrl oracles img fp psf reference _)

/-!
## Forced-mode ellipses (C6)
-/

/-- In the scaled forced body, each recorded exp/dev ellipse is either
unpopulated or the reference's corresponding ellipse. -/
theorem applyForcedScaled_ellipses (ctrl : CModelControl) (oracles : NumericOracles)
    (img : ImageData) (fp : Finset Pixel) (psf : Option PsfApprox)
    (reference : CModelResult) (scale : ℚ) :
    ((applyForcedScaled ctrl oracles img fp psf reference scale).exp.ellipse = none ∨
      (applyForcedScaled ctrl oracles img fp psf reference scale).exp.ellipse =
        reference.exp.ellipse) ∧
    ((applyForcedScaled ctrl oracles img fp psf reference scale).dev.ellipse = none ∨
      (applyForcedScaled ctrl oracles img fp psf reference scale).dev.ellipse =
        reference.dev.ellipse) := by
  unfold applyForcedScaled
  rcases h1 : reference.initial.ellipse with _ | initE
  · exact ⟨Or.inl rfl, Or.inl rfl⟩
  rcases h2 : reference.exp.ellipse with _ | expE
  · exact ⟨Or.inl rfl, Or.inl rfl⟩
  rcases h3 : reference.dev.ellipse with _ | devE
  · exact ⟨Or.inl rfl, Or.inl rfl⟩
  rcases psf with _ | psfA
  · exact ⟨Or.inl rfl, Or.inl rfl⟩
  · exact ⟨Or.inr rfl, Or.inr rfl⟩

/--
C6: In forced mode the exp and dev stage results record the reference
result's ellipses verbatim: unconditionally each recorded ellipse is either
unpopulated (the run aborted before the stages) or equal to the reference's
corresponding ellipse; and when the reference's stage ellipses are populated
and a PSF approximation is supplied, the recorded ellipses are exactly the
reference's (the stages are amplitude-only fits that never re-fit them).
-/
theorem c6_forced_ellipses_from_reference (ctrl : CModelControl) (oracles : NumericOracles)
    (clock : ℕ → ℚ) (img : ImageData) (fp : Finset Pixel) (psf : Option PsfApprox)
    (reference : CModelResult) (approxFlux : ℚ) :
    (((applyForced ctrl oracles clock img fp psf reference approxFlux).exp.ellipse = none ∨
        (applyForced ctrl oracles clock img fp psf reference approxFlux).exp.ellipse =
          reference.exp.ellipse) ∧
      ((applyForced ctrl oracles clock img fp psf reference approxFlux).dev.ellipse = none ∨
        (applyForced ctrl oracles clock img fp psf reference approxFlux).dev.ellipse =
          reference.dev.ellipse)) ∧
    (∀ (initE expE devE : Ellipse) (psfA : PsfApprox),
      reference.initial.ellipse = some initE → reference.exp.ellipse = some expE →
      reference.dev.ellipse = some devE → psf = some psfA →
      (applyForced ctrl oracles clock img fp psf reference approxFlux).exp.ellipse =
        some expE ∧
      (applyForced ctrl oracles clock img fp psf reference approxFlux).dev.ellipse =
        some devE) := by
  have hE : (applyForced ctrl oracles clock img fp psf reference approxFlux).exp.ellipse =
      (applyForcedScaled ctrl oracles img fp psf reference
        (effectiveApproxFlux approxFlux (footprintFluxSum img fp))).exp.ellipse :=
    (insertTimes_stage_ellipses ctrl clock _).2.1
  have hD : (applyForced ctrl oracles clock img fp psf reference approxFlux).dev.ellipse =
      (applyForcedScaled ctrl oracles img fp psf reference
        (effectiveApproxFlux approxFlux (footprintFluxSum img fp))).dev.ellipse :=
    (insertTimes_stage_ellipses ctrl clock _).2.2
  rw [hE, hD]
  constructor
  · exact applyForcedScaled_ellipses ctrl oracles img fp psf reference _
  · intro initE expE devE psfA h1 h2 h3 h4
    subst h4
    unfold applyForcedScaled
    rw [h1, h2, h3]
    exact ⟨rfl, rfl⟩

/-- Witness for C6: on the fixture reference with populated ellipses, the
forced run records the reference ellipses in the exp and dev stage results. -/
theorem c6_forced_ellipses_witness :
    (applyForced testCtrl testOracles testClock testImage testFootprint (some testPsf)
        testReference 1).exp.ellipse = some testEllipse ∧
    (applyForced testCtrl testOracles testClock testImage testFootprint (some testPsf)
        testReference 1).dev.ellipse = some testEllipse :=
  (c6_forced_ellipses_from_reference testCtrl testOracles testClock testImage testFootprint
      (some testPsf) testReference 1).2 testEllipse testEllipse testEllipse testPsf
      rfl rfl rfl rfl

/-!
## Determinism modulo wall time (C9)
-/

/--
C9, counterexample: Two runs of the full pipeline on identical fit
inputs and identical numeric oracles, executed under different ambient
clocks (as two real executions always are), do not produce field-for-field
identical results: the recorded elapsed-time field differs.
-/
theorem c9_wall_clock_counterexample :
    apply testCtrl testOracles testClock testImage testFootprint (some testPsf)
        (some testEllipse) 1 ≠
      apply testCtrl testOracles testClockB testImage testFootprint (some testPsf)
        (some testEllipse) 1 := by
  intro h
  rw [apply_fixture_eq, apply_fixture_eq] at h
  have ht : (fixResult testClock).initial.time = (fixResult testClockB).initial.time := by
    rw [h]
  have h0 : (fixResult testClock).initial.time = 0 := rfl
  have h1 : (fixResult testClockB).initial.time = 1 := rfl
  rw [h0, h1] at ht
  norm_num at ht

/--
C9, amended: The pipeline is deterministic in everything except the
recorded elapsed wall time: for identical fit inputs, configuration and
numeric oracles, two runs under arbitrary ambient clocks agree on every
field of the aggregate result once the per-stage time fields are erased.
-/
theorem c9_determinism_modulo_time (ctrl : CModelControl) (oracles : NumericOracles)
    (img : ImageData) (fp : Finset Pixel) (psf : Option PsfApprox)
    (moments : Option Ellipse) (approxFlux : ℚ) (clock clockB : ℕ → ℚ) :
    stripTimes (apply ctrl oracles clock img fp psf moments approxFlux) =
      stripTimes (apply ctrl oracles clockB img fp psf moments approxFlux) := by
  unfold apply applyWithScale
  rw [stripTimes_insertTimes, stripTimes_insertTimes]

end Multifit
